import Mathlib

/-!
Shallow embedding of `src/services/builder-app.service.ts` (class
`BuilderAppService`), which turns a builder-app configuration into an
ordered list of OpenShift API objects (ImageStream, BuildConfig,
DeploymentConfig and, when the builder image exposes ports, Service and
Route).

Modelling decisions, each tied to the source:
* A JavaScript exposed-ports object (`ExposedPorts`) is modelled as the
  list of its keys in iteration order; the values are never read by the
  source (`_.each(portSpec, function(value, key) ...)` only uses `key`).
* `Math.random()` is modelled by an explicit stream `r : Nat → Nat`
  together with a position index: the k-th draw stands for
  `Math.floor(Math.random() * 0x10000)` and is reduced mod 0x10000.
* The warning branch of `parsePortsFromSpec` executes
  `this.Logger.warn(...)` inside a plain `function` callback: `this` is
  not the service instance there, and the class declares no `Logger`
  member anyway, so the property access throws a `TypeError` at runtime.
  Possibly-throwing computations are therefore embedded in
  `Except String`, and that branch produces `.error`.
* JavaScript string truthiness (`config.gitRef || "master"`,
  `if (config.contextDir)`) is the test against the empty string; the
  `IBuilderAppConfig` interface types these fields as `string`.
* An absent `contextDir` key on `bc.spec.source` is `Option.none`.
-/

namespace BuilderApp

/-- A parsed container port, `{containerPort, protocol}` as pushed by
`parsePortsFromSpec`. `containerPort` is the result of `parseInt(_, 10)`. -/
structure Port where
  containerPort : Int
  protocol : String
deriving Repr, DecidableEq

/-- Model of JavaScript `parseInt(s, 10)`: skip leading whitespace, read an
optional sign, then the longest run of decimal digits; `none` models `NaN`
(no digits found). Trailing non-digit characters are ignored. -/
def parseIntBase10 (s : String) : Option Int :=
  let cs := s.data.dropWhile Char.isWhitespace
  let signed : Int × List Char :=
    match cs with
    | '-' :: rest => (-1, rest)
    | '+' :: rest => (1, rest)
    | _ => (1, cs)
  let ds := signed.2.takeWhile Char.isDigit
  if ds.isEmpty then none
  else some (signed.1 * (ds.foldl (fun acc c => acc * 10 + (c.toNat - 48)) 0 : Nat))

/-- JavaScript `toUpperCase()` over the characters of the string. -/
def jsToUpper (s : String) : String := String.mk (s.data.map Char.toUpper)

/-- JavaScript `toLowerCase()` over the characters of the string. -/
def jsToLower (s : String) : String := String.mk (s.data.map Char.toLower)

/-- Accumulator loop behind `split("/")`: cut the character list at every
`'/'`. The accumulator holds the current piece reversed. -/
def splitSlashAux : List Char → List Char → List String
  | [], acc => [String.mk acc.reverse]
  | c :: rest, acc =>
    if c = '/' then String.mk acc.reverse :: splitSlashAux rest []
    else splitSlashAux rest (c :: acc)

/-- JavaScript `key.split("/")`: the pieces between the slashes, in order;
`""` splits to `[""]`, and a leading, trailing or doubled slash produces
empty pieces. The result is never the empty list. -/
def splitSlash (s : String) : List String := splitSlashAux s.data []

/-- `let parts = key.split("/"); if (parts.length === 1) parts.push("tcp")`. -/
def portParts (key : String) : List String :=
  let parts := splitSlash key
  if parts.length == 1 then parts ++ ["tcp"] else parts

/-- `parsePortsFromSpec`: map image ports to the k8s structure, one entry
per key in iteration order. The `isNaN` branch runs
`this.Logger.warn("Container port " + parts[0] + " is not a number")`;
`this.Logger` is undefined at that point (plain-`function` callback, and no
`Logger` member exists on the class), so the branch throws a `TypeError`
which aborts the whole `_.each` loop — modelled as `.error`. -/
def parsePortsFromSpec : List String → Except String (List Port)
  | [] => .ok []
  | key :: rest =>
    let parts := portParts key
    match parseIntBase10 parts.head! with
    | none =>
      .error ("TypeError: this.Logger is undefined while warning about container port " ++ parts.head!)
    | some n =>
      match parsePortsFromSpec rest with
      | .ok ports => .ok (⟨n, jsToUpper (parts.get! 1)⟩ :: ports)
      | .error e => .error e

/-- The parts of `imageStreamTag` the source reads: `metadata.name`,
`metadata.namespace` (field `namespaceVal` here; `namespace` is a Lean
keyword) and the two exposed-ports paths under `image.dockerImageMetadata`.
`none` models an absent or otherwise falsy path (`_.get` returning
`undefined`). -/
structure ImageStreamTag where
  metadataName : String
  namespaceVal : String
  configExposedPorts : Option (List String)
  containerConfigExposedPorts : Option (List String)
deriving Repr, DecidableEq

/-- `getPorts`: `_.get(image, 'dockerImageMetadata.Config.ExposedPorts') ||
_.get(image, 'dockerImageMetadata.ContainerConfig.ExposedPorts', [])`,
then `parsePortsFromSpec`. -/
def getPorts (imageStreamTag : ImageStreamTag) : Except String (List Port) :=
  let portSpec :=
    match imageStreamTag.configExposedPorts with
    | some m => m
    | none => imageStreamTag.containerConfigExposedPorts.getD []
  parsePortsFromSpec portSpec

/-- The `IBuilderAppConfig` interface. -/
structure IBuilderAppConfig where
  name : String
  repository : String
  gitRef : String
  contextDir : String
  imageStreamTag : ImageStreamTag
deriving Repr, DecidableEq

/-- The labels object `{app: config.name}` returned by `getLabels`. -/
structure Labels where
  app : String
deriving Repr, DecidableEq

/-- The annotations object returned by `getAnnotations`; field
`generatedBy` models the key `"openshift.io/generated-by"`. -/
structure Annots where
  generatedBy : String
deriving Repr, DecidableEq

def getAnnotations : Annots := ⟨"OpenShiftWebConsole"⟩

def getLabels (config : IBuilderAppConfig) : Labels := ⟨config.name⟩

/-- The common `metadata` block of every constructed object. -/
structure Metadata where
  name : String
  labels : Labels
  annots : Annots
deriving Repr, DecidableEq

/-- `getPortName`: `(port.containerPort + '-' + port.protocol).toLowerCase()`;
number-to-string coercion is `toString`. -/
def getPortName (port : Port) : String :=
  jsToLower (toString port.containerPort ++ "-" ++ port.protocol)

/-- `{kind: "Service", name: config.name}` inside the Route spec; field
`toObj` models the key `to`, a Lean keyword. -/
structure RouteTo where
  kind : String
  name : String
deriving Repr, DecidableEq

structure RoutePort where
  targetPort : String
deriving Repr, DecidableEq

structure RouteSpec where
  toObj : RouteTo
  port : RoutePort
  wildcardPolicy : String
deriving Repr, DecidableEq

structure Route where
  kind : String
  apiVersion : String
  metadata : Metadata
  spec : RouteSpec
deriving Repr, DecidableEq

def makeRoute (config : IBuilderAppConfig) (port : Port) : Route :=
  { kind := "Route"
    apiVersion := "v1"
    metadata := ⟨config.name, getLabels config, getAnnotations⟩
    spec :=
      { toObj := ⟨"Service", config.name⟩
        port := ⟨getPortName port⟩
        wildcardPolicy := "None" } }

/-- The selector object `{deploymentconfig: config.name}`. -/
structure Selector where
  deploymentconfig : String
deriving Repr, DecidableEq

structure ServicePort where
  port : Int
  targetPort : Int
  protocol : String
  name : String
deriving Repr, DecidableEq

structure ServiceSpec where
  selector : Selector
  ports : List ServicePort
deriving Repr, DecidableEq

structure Service where
  kind : String
  apiVersion : String
  metadata : Metadata
  spec : ServiceSpec
deriving Repr, DecidableEq

def makeService (config : IBuilderAppConfig) (port : Port) : Service :=
  { kind := "Service"
    apiVersion := "v1"
    metadata := ⟨config.name, getLabels config, getAnnotations⟩
    spec :=
      { selector := ⟨config.name⟩
        ports := [{ port := port.containerPort
                    targetPort := port.containerPort
                    protocol := port.protocol
                    name := getPortName port }] } }

/-- `imageChangeParams` of the DeploymentConfig ImageChange trigger. -/
structure DCImageChangeParams where
  automatic : Bool
  containerNames : List String
  fromKind : String
  fromName : String
deriving Repr, DecidableEq

inductive DCTrigger where
  | imageChange (params : DCImageChangeParams)
  | configChange
deriving Repr, DecidableEq

/-- Pod template labels: `_.assignWith({deploymentconfig: config.name},
getLabels(config))` — the keys are disjoint, so the merged object always
has exactly these two keys. -/
structure PodLabels where
  deploymentconfig : String
  app : String
deriving Repr, DecidableEq

structure Container where
  name : String
  image : String
  ports : List Port
  env : List String
deriving Repr, DecidableEq

structure DCTemplateMetadata where
  labels : PodLabels
deriving Repr, DecidableEq

structure DCTemplateSpec where
  containers : List Container
deriving Repr, DecidableEq

structure DCTemplate where
  metadata : DCTemplateMetadata
  spec : DCTemplateSpec
deriving Repr, DecidableEq

structure DCSpec where
  replicas : Nat
  selector : Selector
  triggers : List DCTrigger
  template : DCTemplate
deriving Repr, DecidableEq

structure DeploymentConfig where
  apiVersion : String
  kind : String
  metadata : Metadata
  spec : DCSpec
deriving Repr, DecidableEq

def makeDeploymentConfig (config : IBuilderAppConfig) (ports : List Port) : DeploymentConfig :=
  { apiVersion := "v1"
    kind := "DeploymentConfig"
    metadata := ⟨config.name, getLabels config, getAnnotations⟩
    spec :=
      { replicas := 1
        selector := ⟨config.name⟩
        triggers :=
          [ .imageChange { automatic := true
                           containerNames := [config.name]
                           fromKind := "ImageStreamTag"
                           fromName := config.name ++ ":latest" },
            .configChange ]
        template :=
          { metadata := { labels := ⟨config.name, config.name⟩ }
            spec :=
              { containers := [{ name := config.name
                                 image := config.name ++ ":latest"
                                 ports := ports
                                 env := [] }] } } } }

/-- Hexadecimal digit of `toString(16)` for a value below 16. -/
def toHexDigit (n : Nat) : Char :=
  if n < 10 then Char.ofNat (48 + n) else Char.ofNat (87 + n)

/-- Four-hex-digit zero-padded rendering of `k % 0x10000`. -/
def toHex4 (k : Nat) : String :=
  String.mk [toHexDigit (k / 4096 % 16), toHexDigit (k / 256 % 16),
             toHexDigit (k / 16 % 16), toHexDigit (k % 16)]

/-- `s4()`: `Math.floor((1 + Math.random()) * 0x10000).toString(16).substring(1)`.
With `k = Math.floor(Math.random() * 0x10000)` the floored value is
`0x10000 + k`, whose base-16 rendering is `"1"` followed by the four-digit
zero-padded rendering of `k`; `substring(1)` keeps those four digits. -/
def s4 (k : Nat) : String := toHex4 (k % 65536)

/-- `generateSecret()`: `s4() + s4() + s4() + s4()`, consuming four
consecutive draws of the random stream starting at position `i`. -/
def generateSecret (r : Nat → Nat) (i : Nat) : String :=
  s4 (r i) ++ s4 (r (i + 1)) ++ s4 (r (i + 2)) ++ s4 (r (i + 3))

structure BCOutputTo where
  kind : String
  name : String
deriving Repr, DecidableEq

structure BCOutput where
  toObj : BCOutputTo
deriving Repr, DecidableEq

structure BCGit where
  ref : String
  uri : String
deriving Repr, DecidableEq

/-- `bc.spec.source`; `contextDir = none` models the key being absent. -/
structure BCSource where
  git : BCGit
  type : String
  contextDir : Option String
deriving Repr, DecidableEq

/-- `sourceStrategy.from` (field `fromTag`; `from` is a Lean keyword). -/
structure BCFrom where
  kind : String
  name : String
  namespaceVal : String
deriving Repr, DecidableEq

structure BCSourceStrategy where
  fromTag : BCFrom
  env : List String
deriving Repr, DecidableEq

structure BCStrategy where
  type : String
  sourceStrategy : BCSourceStrategy
deriving Repr, DecidableEq

inductive BCTrigger where
  | imageChange
  | configChange
  | generic (secret : String)
  | github (secret : String)
deriving Repr, DecidableEq

structure BCSpec where
  output : BCOutput
  source : BCSource
  strategy : BCStrategy
  triggers : List BCTrigger
deriving Repr, DecidableEq

structure BuildConfig where
  apiVersion : String
  kind : String
  metadata : Metadata
  spec : BCSpec
deriving Repr, DecidableEq

/-- `makeBuildConfig`: the Generic trigger's secret is generated first
(object literals evaluate in order), so it consumes draws `i..i+3` and the
GitHub secret draws `i+4..i+7`. `contextDir` is attached only when
`config.contextDir` is truthy. -/
def makeBuildConfig (config : IBuilderAppConfig) (r : Nat → Nat) (i : Nat) : BuildConfig :=
  { apiVersion := "v1"
    kind := "BuildConfig"
    metadata := ⟨config.name, getLabels config, getAnnotations⟩
    spec :=
      { output := { toObj := ⟨"ImageStreamTag", config.name ++ ":latest"⟩ }
        source :=
          { git := ⟨if config.gitRef = "" then "master" else config.gitRef, config.repository⟩
            type := "Git"
            contextDir := if config.contextDir = "" then none else some config.contextDir }
        strategy :=
          { type := "Source"
            sourceStrategy :=
              { fromTag := ⟨"ImageStreamTag", config.imageStreamTag.metadataName,
                            config.imageStreamTag.namespaceVal⟩
                env := [] } }
        triggers :=
          [ .imageChange, .configChange,
            .generic (generateSecret r i),
            .github (generateSecret r (i + 4)) ] } }

structure ImageStream where
  apiVersion : String
  kind : String
  metadata : Metadata
deriving Repr, DecidableEq

def makeImageStream (config : IBuilderAppConfig) : ImageStream :=
  { apiVersion := "v1"
    kind := "ImageStream"
    metadata := ⟨config.name, getLabels config, getAnnotations⟩ }

/-- An element of the heterogeneous array returned by `makeAPIObjects`. -/
inductive APIObject where
  | imageStream (obj : ImageStream)
  | buildConfig (obj : BuildConfig)
  | deploymentConfig (obj : DeploymentConfig)
  | service (obj : Service)
  | route (obj : Route)
deriving Repr, DecidableEq

def APIObject.kind : APIObject → String
  | .imageStream obj => obj.kind
  | .buildConfig obj => obj.kind
  | .deploymentConfig obj => obj.kind
  | .service obj => obj.kind
  | .route obj => obj.kind

def APIObject.metadata : APIObject → Metadata
  | .imageStream obj => obj.metadata
  | .buildConfig obj => obj.metadata
  | .deploymentConfig obj => obj.metadata
  | .service obj => obj.metadata
  | .route obj => obj.metadata

/-- `makeAPIObjects`: always ImageStream, BuildConfig, DeploymentConfig;
Service and Route are appended only when `_.head(ports)` is defined. A
thrown `TypeError` from port parsing propagates out. -/
def makeAPIObjects (config : IBuilderAppConfig) (r : Nat → Nat) (i : Nat) :
    Except String (List APIObject) :=
  match getPorts config.imageStreamTag with
  | .error e => .error e
  | .ok ports =>
    let objects := [APIObject.imageStream (makeImageStream config),
                    APIObject.buildConfig (makeBuildConfig config r i),
                    APIObject.deploymentConfig (makeDeploymentConfig config ports)]
    match ports.head? with
    | none => .ok objects
    | some firstPort =>
      .ok (objects ++ [APIObject.service (makeService config firstPort),
                       APIObject.route (makeRoute config firstPort)])


/-! ### Helper definitions used by the verification -/

/-- Spec-side description of a successfully parsed port entry (refinement
target for the parser claims): containerPort is the first segment parsed as
a base-10 integer, protocol is the second segment uppercased, after
splitting the key on `/` and defaulting a missing protocol to `tcp`. -/
def specPortEntry (key : String) : Port :=
  ⟨(parseIntBase10 (portParts key).head!).get!, jsToUpper ((portParts key).get! 1)⟩

/-- Blank out the webhook secret carried by a Generic or GitHub trigger. -/
def eraseSecret : BCTrigger → BCTrigger
  | .generic _ => .generic ""
  | .github _ => .github ""
  | t => t

/-- A BuildConfig with both webhook secrets blanked out; two BuildConfigs
agree after `eraseBCSecrets` exactly when they differ at most in the two
secret fields. -/
def eraseBCSecrets (bc : BuildConfig) : BuildConfig :=
  { bc with spec := { bc.spec with triggers := bc.spec.triggers.map eraseSecret } }

/-- A lowercase hexadecimal digit, as produced by `toString(16)`. -/
def isHexChar (c : Char) : Bool :=
  c.isDigit || ('a' ≤ c && c ≤ 'f')

/-- A sample `imageStreamTag` exposing one port, from the spec's
end-to-end example. -/
def demoTag : ImageStreamTag := ⟨"node", "openshift", some ["8080/tcp"], none⟩

/-- A sample `imageStreamTag` with both exposed-ports paths absent. -/
def demoTagNoPorts : ImageStreamTag := ⟨"node", "openshift", none, none⟩

/-- The spec's end-to-end example configuration. -/
def demoConfig : IBuilderAppConfig :=
  ⟨"myapp", "https://example.com/r.git", "", "", demoTag⟩

/-- A configuration with a non-empty `gitRef` and `contextDir` and no
exposed ports. -/
def demoConfigFull : IBuilderAppConfig :=
  ⟨"myapp", "https://example.com/r.git", "develop", "app", demoTagNoPorts⟩

/-- A concrete random stream. -/
def zeroStream : Nat → Nat := fun _ => 0

/-- `(x ++ y).data = x.data ++ y.data`, stated for rewriting. -/
theorem string_data_append (x y : String) : (x ++ y).data = x.data ++ y.data := rfl

/-- Every digit below 16 renders to a lowercase hexadecimal character. -/
theorem toHexDigit_hex : ∀ n < 16, isHexChar (toHexDigit n) = true := by decide

/-- Every character of an `s4` group is a hexadecimal digit. -/
theorem s4_hex (k : Nat) : ∀ c ∈ (s4 k).data, isHexChar c = true := by
  intro c hc
  simp only [s4, toHex4, List.mem_cons, List.not_mem_nil, or_false] at hc
  rcases hc with h | h | h | h <;> subst h <;>
    exact toHexDigit_hex _ (Nat.mod_lt _ (by decide))

/-- Every character of a generated secret is a hexadecimal digit. -/
theorem generateSecret_hex (r : Nat → Nat) (i : Nat) :
    ∀ c ∈ (generateSecret r i).data, isHexChar c = true := by
  intro c hc
  simp only [generateSecret, string_data_append, List.mem_append] at hc
  rcases hc with ((h | h) | h) | h <;> exact s4_hex _ c h

/-! ### Claim theorems -/

/-- C2: the claim says an unparseable port key is skipped with one warning
and no exception; the code instead evaluates `this.Logger.warn(...)` with
`this.Logger` undefined, raising a `TypeError`, so `{"abc/tcp": {}}`
produces an exception rather than `[]`. -/
theorem parsePortsFromSpec_abc_throws :
    parsePortsFromSpec ["abc/tcp"] =
      .error "TypeError: this.Logger is undefined while warning about container port abc" := by
  rfl

/-- Supporting lemma: when every key of the mapping parses,
`parsePortsFromSpec` succeeds and returns, in the mapping's iteration
order, one entry per key whose containerPort is the first `/`-segment
parsed base-10 and whose protocol is the second segment uppercased
(defaulting to `tcp` when the key has no slash); in particular
`{"8080/tcp": {}}` and `{"8080": {}}` both parse to
`[{containerPort: 8080, protocol: "TCP"}]`. -/
theorem parsePortsFromSpec_order (keys : List String)
    (h : ∀ k ∈ keys, (parseIntBase10 (portParts k).head!).isSome) :
    parsePortsFromSpec keys = .ok (keys.map specPortEntry) ∧
    parsePortsFromSpec ["8080/tcp"] = .ok [⟨8080, "TCP"⟩] ∧
    parsePortsFromSpec ["8080"] = .ok [⟨8080, "TCP"⟩] := by
  refine ⟨?_, rfl, rfl⟩
  induction keys with
  | nil => rfl
  | cons k ks ih =>
    obtain ⟨n, hn⟩ := Option.isSome_iff_exists.mp (h k (by simp))
    have hrest := ih fun x hx => h x (by simp [hx])
    simp [parsePortsFromSpec, hn, hrest, specPortEntry]

/-- The supporting lemma instantiated at the two example mappings, showing
its hypothesis is satisfiable. -/
theorem parsePortsFromSpec_order_witness :
    (∀ k ∈ ["8080/tcp", "8080"], (parseIntBase10 (portParts k).head!).isSome) ∧
    parsePortsFromSpec ["8080/tcp", "8080"] =
      .ok [⟨8080, "TCP"⟩, ⟨8080, "TCP"⟩] := by
  refine ⟨by decide, ?_⟩
  rw [(parsePortsFromSpec_order ["8080/tcp", "8080"] (by decide)).1]
  rfl

/-- C3: the per-key mapping the claim describes (split on `/`, `tcp`
default, uppercased protocol, base-10 containerPort, iteration order
preserved) holds whenever parsing completes — `{"8080/udp": {}}` alone
yields its entry — but the claim quantifies over every exposed-ports
mapping: on the mixed mapping `{"abc": {}, "8080/udp": {}}` the code
throws the undefined-`this.Logger` `TypeError` at the first unparseable
key, so the successfully parseable key `"8080/udp"` yields nothing and no
result sequence exists. -/
theorem parsePortsFromSpec_mixed_aborts :
    parsePortsFromSpec ["8080/udp"] = .ok [⟨8080, "UDP"⟩] ∧
    parsePortsFromSpec ["abc", "8080/udp"] =
      .error "TypeError: this.Logger is undefined while warning about container port abc" :=
  ⟨rfl, rfl⟩

/-- C10: a key whose first segment has trailing garbage after digits, such
as `"8080abc/tcp"`, is accepted with the leading numeric prefix as the
containerPort; a key with no leading parseable digits takes the failure
branch, which throws (undefined `this.Logger`) instead of skipping. -/
theorem parsePortsFromSpec_numeric_prefix :
    parsePortsFromSpec ["8080abc/tcp"] = .ok [⟨8080, "TCP"⟩] ∧
    parseIntBase10 "8080abc" = some 8080 ∧
    parsePortsFromSpec ["8080abc/tcp", "abc"] =
      .error "TypeError: this.Logger is undefined while warning about container port abc" := by
  exact ⟨rfl, rfl, rfl⟩

/-- C5: the derived port name is `lowercase(containerPort + "-" + protocol)`
(port 8080/TCP gives `"8080-tcp"`), and this exact string is both the name
of the Service's single port entry and the Route's `spec.port.targetPort`. -/
theorem getPortName_service_route_agree (config : IBuilderAppConfig) (port : Port) :
    getPortName port = jsToLower (toString port.containerPort ++ "-" ++ port.protocol) ∧
    getPortName ⟨8080, "TCP"⟩ = "8080-tcp" ∧
    (makeService config port).spec.ports.map ServicePort.name = [getPortName port] ∧
    (makeRoute config port).spec.port.targetPort = getPortName port :=
  ⟨rfl, rfl, rfl, rfl⟩

/-- C6: `getPorts` parses `Config.ExposedPorts` when that path yields a
value, otherwise `ContainerConfig.ExposedPorts`, and when both are absent
it parses the empty mapping and succeeds with no ports. -/
theorem getPorts_paths (tag : ImageStreamTag) :
    (∀ m, tag.configExposedPorts = some m → getPorts tag = parsePortsFromSpec m) ∧
    (tag.configExposedPorts = none → ∀ m, tag.containerConfigExposedPorts = some m →
      getPorts tag = parsePortsFromSpec m) ∧
    (tag.configExposedPorts = none → tag.containerConfigExposedPorts = none →
      getPorts tag = .ok []) := by
  refine ⟨?_, ?_, ?_⟩ <;> intros <;> simp_all [getPorts, parsePortsFromSpec]

/-- Witness for C6 at a tag with both exposed-ports paths absent. -/
theorem getPorts_paths_witness :
    demoTagNoPorts.configExposedPorts = none ∧
    demoTagNoPorts.containerConfigExposedPorts = none ∧
    getPorts demoTagNoPorts = .ok [] :=
  ⟨rfl, rfl, (getPorts_paths demoTagNoPorts).2.2 rfl rfl⟩

/-- C1: with an empty parsed-port list `makeAPIObjects` returns exactly the
3 objects of kinds ImageStream, BuildConfig, DeploymentConfig in that
order; with at least one parsed port it returns exactly 5 objects of kinds
ImageStream, BuildConfig, DeploymentConfig, Service, Route in that order,
the Service and Route being built from the first port in parse order. -/
theorem makeAPIObjects_shape (config : IBuilderAppConfig) (r : Nat → Nat) (i : Nat)
    (ps : List Port) (h : getPorts config.imageStreamTag = .ok ps) :
    (ps = [] → ∃ l, makeAPIObjects config r i = .ok l ∧
      l.map APIObject.kind = ["ImageStream", "BuildConfig", "DeploymentConfig"]) ∧
    (∀ p ps2, ps = p :: ps2 → ∃ l, makeAPIObjects config r i = .ok l ∧
      l.map APIObject.kind =
        ["ImageStream", "BuildConfig", "DeploymentConfig", "Service", "Route"] ∧
      l.get? 3 = some (.service (makeService config p)) ∧
      l.get? 4 = some (.route (makeRoute config p))) := by
  constructor
  · rintro rfl
    have hm : makeAPIObjects config r i =
        .ok [.imageStream (makeImageStream config),
             .buildConfig (makeBuildConfig config r i),
             .deploymentConfig (makeDeploymentConfig config [])] := by
      simp [makeAPIObjects, h]
    exact ⟨_, hm, rfl⟩
  · rintro p ps2 rfl
    have hm : makeAPIObjects config r i =
        .ok [.imageStream (makeImageStream config),
             .buildConfig (makeBuildConfig config r i),
             .deploymentConfig (makeDeploymentConfig config (p :: ps2)),
             .service (makeService config p),
             .route (makeRoute config p)] := by
      simp [makeAPIObjects, h]
    exact ⟨_, hm, rfl, rfl, rfl⟩

/-- Witness for C1 at the spec's end-to-end example, whose image exposes
the single port 8080/tcp. -/
theorem makeAPIObjects_shape_witness :
    getPorts demoConfig.imageStreamTag = .ok [⟨8080, "TCP"⟩] ∧
    (∃ l, makeAPIObjects demoConfig zeroStream 0 = .ok l ∧
      l.map APIObject.kind =
        ["ImageStream", "BuildConfig", "DeploymentConfig", "Service", "Route"] ∧
      l.get? 3 = some (.service (makeService demoConfig ⟨8080, "TCP"⟩)) ∧
      l.get? 4 = some (.route (makeRoute demoConfig ⟨8080, "TCP"⟩))) :=
  ⟨rfl, (makeAPIObjects_shape demoConfig zeroStream 0 [⟨8080, "TCP"⟩] rfl).2
    ⟨8080, "TCP"⟩ [] rfl⟩

/-- C4: every object returned by `makeAPIObjects` carries the label
`app = config.name` and the annotation
`"openshift.io/generated-by" = "OpenShiftWebConsole"`. -/
theorem makeAPIObjects_labels (config : IBuilderAppConfig) (r : Nat → Nat) (i : Nat)
    (l : List APIObject) (h : makeAPIObjects config r i = .ok l) :
    ∀ o ∈ l, o.metadata.labels.app = config.name ∧
      o.metadata.annots.generatedBy = "OpenShiftWebConsole" := by
  unfold makeAPIObjects at h
  cases hg : getPorts config.imageStreamTag with
  | error e => rw [hg] at h; cases h
  | ok ports =>
    rw [hg] at h
    cases ports with
    | nil =>
      simp only [List.head?] at h
      cases h
      rintro o ho
      simp only [List.mem_cons, List.not_mem_nil, or_false] at ho
      rcases ho with rfl | rfl | rfl <;>
        simp [APIObject.metadata, makeImageStream, makeBuildConfig, makeDeploymentConfig,
              getLabels, getAnnotations]
    | cons p ps =>
      simp only [List.head?] at h
      cases h
      rintro o ho
      simp only [List.cons_append, List.nil_append, List.mem_cons,
        List.not_mem_nil, or_false] at ho
      rcases ho with rfl | rfl | rfl | rfl | rfl <;>
        simp [APIObject.metadata, makeImageStream, makeBuildConfig, makeDeploymentConfig,
              makeService, makeRoute, getLabels, getAnnotations]

/-- Witness for C4: the Route of the end-to-end example carries the
required label and annotation. -/
theorem makeAPIObjects_labels_witness :
    (APIObject.route (makeRoute demoConfig ⟨8080, "TCP"⟩)).metadata.labels.app
        = demoConfig.name ∧
    (APIObject.route (makeRoute demoConfig ⟨8080, "TCP"⟩)).metadata.annots.generatedBy
        = "OpenShiftWebConsole" :=
  makeAPIObjects_labels demoConfig zeroStream 0
    [.imageStream (makeImageStream demoConfig),
     .buildConfig (makeBuildConfig demoConfig zeroStream 0),
     .deploymentConfig (makeDeploymentConfig demoConfig [⟨8080, "TCP"⟩]),
     .service (makeService demoConfig ⟨8080, "TCP"⟩),
     .route (makeRoute demoConfig ⟨8080, "TCP"⟩)] (by rfl)
    (.route (makeRoute demoConfig ⟨8080, "TCP"⟩)) (by simp)

/-- C7: two BuildConfigs built from the same config agree everywhere except
the Generic and GitHub webhook secrets; within one construction the two
secrets come from two independent generator calls (draws `i..i+3` for
Generic, `i+4..i+7` for GitHub), and every generated secret is 16
hexadecimal characters (four 4-character groups). -/
theorem makeBuildConfig_secret_confinement (config : IBuilderAppConfig)
    (r1 r2 : Nat → Nat) (i1 i2 : Nat) :
    eraseBCSecrets (makeBuildConfig config r1 i1)
      = eraseBCSecrets (makeBuildConfig config r2 i2) ∧
    (makeBuildConfig config r1 i1).spec.triggers =
      [.imageChange, .configChange,
       .generic (s4 (r1 i1) ++ s4 (r1 (i1 + 1)) ++ s4 (r1 (i1 + 2)) ++ s4 (r1 (i1 + 3))),
       .github (s4 (r1 (i1 + 4)) ++ s4 (r1 (i1 + 5)) ++ s4 (r1 (i1 + 6)) ++ s4 (r1 (i1 + 7)))] ∧
    (∀ r : Nat → Nat, ∀ i : Nat, (generateSecret r i).length = 16 ∧
      ∀ c ∈ (generateSecret r i).data, isHexChar c = true) :=
  ⟨rfl, rfl, fun r i => ⟨rfl, generateSecret_hex r i⟩⟩

/-- Witness for C7: a concrete character of a concretely generated secret
is a hexadecimal digit. -/
theorem makeBuildConfig_secret_confinement_witness :
    ('0' ∈ (generateSecret zeroStream 0).data) ∧ isHexChar '0' = true :=
  ⟨by decide,
   ((makeBuildConfig_secret_confinement demoConfig zeroStream zeroStream 0 0).2.2
      zeroStream 0).2 '0' (by decide)⟩

/-- C8: an empty `gitRef` defaults the BuildConfig's `spec.source.git.ref`
to `"master"`; a non-empty `gitRef` is used as-is, and `spec.source.git.uri`
is always `config.repository`. -/
theorem makeBuildConfig_gitRef (config : IBuilderAppConfig) (r : Nat → Nat) (i : Nat) :
    (config.gitRef = "" → (makeBuildConfig config r i).spec.source.git.ref = "master") ∧
    (config.gitRef ≠ "" → (makeBuildConfig config r i).spec.source.git.ref = config.gitRef) ∧
    (makeBuildConfig config r i).spec.source.git.uri = config.repository := by
  refine ⟨fun h => ?_, fun h => ?_, rfl⟩ <;> simp [makeBuildConfig, h]

/-- Witness for C8 at a config with empty `gitRef` and one with
`gitRef = "develop"`. -/
theorem makeBuildConfig_gitRef_witness :
    (demoConfig.gitRef = "" ∧
      (makeBuildConfig demoConfig zeroStream 0).spec.source.git.ref = "master") ∧
    (demoConfigFull.gitRef ≠ "" ∧
      (makeBuildConfig demoConfigFull zeroStream 0).spec.source.git.ref
        = demoConfigFull.gitRef) :=
  ⟨⟨rfl, (makeBuildConfig_gitRef demoConfig zeroStream 0).1 rfl⟩,
   ⟨by decide, (makeBuildConfig_gitRef demoConfigFull zeroStream 0).2.1 (by decide)⟩⟩

/-- C9: an empty `contextDir` leaves the BuildConfig's `spec.source`
without a `contextDir` key (`none`, not an empty string); a non-empty
`contextDir` is attached as-is. -/
theorem makeBuildConfig_contextDir (config : IBuilderAppConfig) (r : Nat → Nat) (i : Nat) :
    (config.contextDir = "" →
      (makeBuildConfig config r i).spec.source.contextDir = none) ∧
    (config.contextDir ≠ "" →
      (makeBuildConfig config r i).spec.source.contextDir = some config.contextDir) := by
  refine ⟨fun h => ?_, fun h => ?_⟩ <;> simp [makeBuildConfig, h]

/-- Witness for C9 at a config with empty `contextDir` and one with
`contextDir = "app"`. -/
theorem makeBuildConfig_contextDir_witness :
    (demoConfig.contextDir = "" ∧
      (makeBuildConfig demoConfig zeroStream 0).spec.source.contextDir = none) ∧
    (demoConfigFull.contextDir ≠ "" ∧
      (makeBuildConfig demoConfigFull zeroStream 0).spec.source.contextDir
        = some demoConfigFull.contextDir) :=
  ⟨⟨rfl, (makeBuildConfig_contextDir demoConfig zeroStream 0).1 rfl⟩,
   ⟨by decide, (makeBuildConfig_contextDir demoConfigFull zeroStream 0).2 (by decide)⟩⟩

end BuilderApp
